import Mathlib

/-!
Verification of the road-runner job execution agent.

This file gives a shallow embedding, in Lean, of the parts of the
road-runner source that the specification's claims are about:

* the string-map operations used for Docker labels and environments
  (Go map assignment, modelled by association lists);
* the `dcompose` package (docker-compose generation: `InitFromJob`,
  `ConvertStep`, the container-type label constants);
* the label constants and label maps of the vendored `dockerops` package;
* `exit.go` (the cleanup actions chosen by `Exit` per status code);
* the `TimeTracker` (`fs.go`: `ApplyDelta`);
* the cancellation-warning buffer and step ticker (`getTicker`,
  `determineCancellationWarningBuffer`);
* the terminal-status computation of `Run` (`run.go`);
* the capture-file paths of `downloadInputs` (`run.go`);
* `parseRepo` and the registry argument of `DockerLogin` (`run.go`).

Theorems about these definitions settle the claims; each theorem carries a
doc comment naming the claim it settles.
-/

namespace RoadRunner

/-! ### Go string maps as association lists

Go `map[string]string` values are modelled by association lists with
distinct keys. `mapSet m k v` is the Go assignment `m[k] = v` (replace when
the key is present, append otherwise); `mapGet m k` is the Go read `m[k]`
(as an `Option`, `none` standing for absence). -/

def mapSet : List (String × String) → String → String → List (String × String)
  | [], k, v => [(k, v)]
  | (a, b) :: t, k, v => if a == k then (k, v) :: t else (a, b) :: mapSet t k v

def mapGet (m : List (String × String)) (k : String) : Option String :=
  (m.find? (fun p => p.1 == k)).map (fun p => p.2)

theorem mapGet_mapSet_self (m : List (String × String)) (k v : String) :
    mapGet (mapSet m k v) k = some v := by
  induction m with
  | nil => simp [mapSet, mapGet]
  | cons hd tl ih =>
    obtain ⟨a, b⟩ := hd
    by_cases h : a = k
    · simp [mapSet, mapGet, h]
    · have hb : (a == k) = false := by simpa using h
      simp [mapSet, mapGet, hb] at ih ⊢
      exact ih

theorem mapGet_mapSet_ne (m : List (String × String)) (k k' v : String)
    (h : k ≠ k') : mapGet (mapSet m k' v) k = mapGet m k := by
  induction m with
  | nil =>
    have hb : (k' == k) = false := by simpa using (Ne.symm h)
    simp [mapSet, mapGet, hb]
  | cons hd tl ih =>
    obtain ⟨a, b⟩ := hd
    by_cases ha : a = k'
    · subst ha
      have hb : (a == k) = false := by simpa using (Ne.symm h)
      simp [mapSet, mapGet, hb]
    · have hb : (a == k') = false := by simpa using ha
      by_cases hak : a = k
      · subst hak
        simp [mapSet, mapGet, hb]
      · have hbk : (a == k) = false := by simpa using hak
        simp [mapSet, mapGet, hb, hbk] at ih ⊢
        exact ih

/-! ### Status codes

Modelled from the spec: the `StatusCode` enumeration of the
`cyverse-de/messaging` package, which is not vendored under `src/`.
The spec (section 3) lists the codes {Success, DockerPullFailed,
DockerCreateFailed, InputFailed, StepFailed, OutputFailed, TimeLimit,
Killed}; only their identities (distinctness) matter to the code under
`src/`, never their numeric values. -/

inductive StatusCode where
  | success
  | dockerPullFailed
  | dockerCreateFailed
  | inputFailed
  | stepFailed
  | outputFailed
  | timeLimit
  | killed
deriving DecidableEq

/-! ### Cleanup at exit (`src/exit.go`, function `Exit`)

`Exit` receives the terminal status code and performs a fixed sequence of
cleanup calls chosen by a `switch` on the code: on `StatusKilled` it runs
`RemoveDataContainerImages`, `RemoveInputContainers`,
`RemoveStepContainers`, `RemoveDataContainers`, `RemoveVolume(invID)`,
`RemoveJobContainers(invID)` (src/exit.go lines 145-168); on every other
code (the `default` branch, lines 169-176) it runs only
`RemoveJobContainers(invID)` then `RemoveVolume(invID)`. The embedding
records the sequence of cleanup actions performed. -/

inductive CleanupAction where
  | removeDataContainerImages
  | removeInputContainers
  | removeStepContainers
  | removeDataContainers
  | removeVolume (id : String)
  | removeJobContainers (id : String)
deriving DecidableEq

def exitCleanupActions (invID : String) (exitCode : StatusCode) : List CleanupAction :=
  match exitCode with
  | .killed =>
      [.removeDataContainerImages,
       .removeInputContainers,
       .removeStepContainers,
       .removeDataContainers,
       .removeVolume invID,
       .removeJobContainers invID]
  | _ =>
      [.removeJobContainers invID,
       .removeVolume invID]

/-- Status code delivered on the exit channel by the step-deadline ticker:
`getTicker` (src/unnamed/part_007 lines 62-66) starts a goroutine that, when
the step ticker fires, sends `messaging.StatusTimeLimit` on `exit`. -/
def tickerDeadlineExitStatus : StatusCode := .timeLimit

/-! ### TimeTracker (`src/fs.go` lines 44-79)

Time instants are modelled as integers (Go `time.Time` nanoseconds).
A `TimeTracker` holds the recorded end date and its kill timer, modelled by
whether the timer is currently active and the instant at which it is
scheduled to fire. Go `Timer.Reset(d)` reschedules the timer to fire `d`
after the current instant, makes it active, and returns whether it was
active before the call. -/

structure TimeTracker where
  endDate : Int
  timerActive : Bool
  timerFireTime : Int
deriving DecidableEq

structure ApplyDeltaResult where
  tracker : TimeTracker
  err : Option String
deriving DecidableEq

/-- Embedding of `TimeTracker.ApplyDelta` (src/fs.go lines 62-79), line by
line: `newEndDate := t.EndDate.Add(deltaDuration)`;
`newDuration := t.EndDate.Sub(time.Now())` (note: the receiver field, still
the OLD end date, not `newEndDate`); `wasActive := t.Timer.Reset(newDuration)`;
`t.EndDate = newEndDate`; then an error is returned when `!wasActive`.
`now` is the value of `time.Now()` at the call. -/
def TimeTracker.ApplyDelta (t : TimeTracker) (now deltaDuration : Int) : ApplyDeltaResult :=
  let newEndDate := t.endDate + deltaDuration
  let newDuration := t.endDate - now
  let wasActive := t.timerActive
  let t1 : TimeTracker :=
    { endDate := newEndDate, timerActive := true, timerFireTime := now + newDuration }
  if wasActive then { tracker := t1, err := none }
  else { tracker := t1, err := some "Timer was not active" }

/-! ### Cancellation-warning buffer (`src/unnamed/part_007` lines 20-41)

Durations are Go `time.Duration` values, i.e. integer nanosecond counts.
The source computes `buffer := time.Duration(float64(jobDuration) * 0.2)`;
the float64 multiplication is modelled as the exact value `jobDuration*2/10`
(truncated division), which agrees with the float computation at every
duration used in the claims (the product is exactly representable there). -/

def nsPerSecond : Int := 1000000000

def nsPerMinute : Int := 60 * nsPerSecond

def minCancellationBuffer : Int := 30 * nsPerSecond

def maxCancellationBuffer : Int := 5 * nsPerMinute

def cancellationBufferThreshold : Int := 2 * minCancellationBuffer

def determineCancellationWarningBuffer (jobDuration : Int) : Int :=
  if jobDuration < cancellationBufferThreshold then 0
  else
    let buffer := jobDuration * 2 / 10
    if buffer < minCancellationBuffer then minCancellationBuffer
    else if buffer > maxCancellationBuffer then maxCancellationBuffer
    else buffer

/-- Clamp of a duration to a closed interval, following the words of the
spec ("B = clamp(0.2·D, minBuffer=30s, maxBuffer=5m)"); written as a
separate definition to compare against the source's branch structure. -/
def clampDuration (x lo hi : Int) : Int :=
  if x < lo then lo else if x > hi then hi else x

/-- Whether `getTicker` schedules a cancellation warning for a step with the
given `TimeLimit` (seconds): a warning ticker is created iff the computed
buffer is positive (src/unnamed/part_007 lines 52-56); `getTicker` rejects
a non-positive time limit (lines 44-46). -/
def getTickerSchedulesWarning (timeLimit : Int) : Option Bool :=
  if timeLimit ≤ 0 then none
  else some (decide (0 < determineCancellationWarningBuffer (timeLimit * nsPerSecond)))

/-! ### The job model

Data carriers consumed by the runner. The `cyverse-de/model` package is not
vendored under `src/`; these structures record exactly the fields and
method results of the job model that the code under `src/` reads (spec
section 3). Method results that the embedded code consumes but whose
bodies live in the model package (`Input.Arguments`, `Step.Arguments`,
`Container.WorkingDirectory`, `Job.FinalOutputArguments`) are carried as
data fields. The Go field `NamePrefix` is embedded as `namePfx`. -/

structure ImageSpec where
  name : String
  tag : String
  auth : String := ""
deriving DecidableEq

structure DeviceSpec where
  hostPath : String
  containerPath : String
  cgroupPermissions : String
deriving DecidableEq

structure VolumesFromSpec where
  namePfx : String
deriving DecidableEq

structure ContainerSpec where
  image : ImageSpec
  entryPoint : String := ""
  memoryLimit : Int := 0
  cpuShares : Int := 0
  networkMode : String := ""
  name : String := ""
  workingDirectory : String := "/de-app-work"
  volumesFrom : List VolumesFromSpec := []
  devices : List DeviceSpec := []
deriving DecidableEq

structure Component where
  container : ContainerSpec
  timeLimit : Int := 0
deriving DecidableEq

structure Step where
  component : Component
  environment : List (String × String) := []
  arguments : List String := []
deriving DecidableEq

structure DataContainerDecl where
  name : String
  tag : String
  namePfx : String
  hostPath : String := ""
  containerPath : String := ""
  readOnly : Bool := false
deriving DecidableEq

structure InputDecl where
  irodsPath : String
  arguments : List String := []
deriving DecidableEq

structure Job where
  invocationID : String
  submitter : String
  dataContainers : List DataContainerDecl := []
  inputs : List InputDecl := []
  steps : List Step := []
  finalOutputArguments : List String := []
deriving DecidableEq

/-- Configuration values read by `InitFromJob` through viper
(`cfg.GetString`). -/
structure RunnerConfig where
  porklockImage : String
  porklockTag : String
  vaultURL : String
  vaultToken : String
deriving DecidableEq

namespace model

/-- Modelled from the spec: the platform's well-known label key
(`model.DockerLabelKey`); the `cyverse-de/model` package is not vendored
under `src/`, and only the key's identity matters (it differs from the
container-type key `org.iplantc.containertype`). -/
def DockerLabelKey : String := "org.iplantc.de.platform-label"

end model

namespace dcompose

/-! ### The `dcompose` package (`src/dcompose/dcompose.go`, lines 1-293)

The const block at lines 24-39 is a single Go `const` group whose first
ConstSpec is the string `TypeLabel`. Go assigns `iota` the index of each
ConstSpec within the group, so `TypeLabel` occupies index 0 and
`InputContainer = iota` evaluates to 1, with the following implicitly
repeated `= iota` giving `DataContainer` = 2, `StepContainer` = 3 and
`OutputContainer` = 4. -/

def WORKDIR : String := "/de-app-work"

def VOLUMEDIR : String := "workingvolume"

def TypeLabel : String := "org.iplantc.containertype"

def InputContainer : Nat := 1

def DataContainer : Nat := 2

def StepContainer : Nat := 3

def OutputContainer : Nat := 4

/-- Docker-compose service, with the fields assigned by `InitFromJob` and
`ConvertStep`; defaults are the Go zero values of the unassigned fields.
`loggingDriver` is the `Logging` field's driver (`none` = no LoggingConfig
attached); `networks` records the keys of the `Networks` map. -/
structure Service where
  capAdd : List String := []
  command : List String := []
  containerName : String := ""
  entryPoint : String := ""
  environment : List (String × String) := []
  image : String := ""
  labels : List (String × String) := []
  loggingDriver : Option String := none
  memLimit : String := ""
  cpuShares : String := ""
  networkMode : String := ""
  networks : List String := []
  volumes : List String := []
  volumesFrom : List String := []
  workingDir : String := ""
  devices : List String := []
deriving DecidableEq

structure VolumeDef where
  driver : String
  options : List (String × String) := []
deriving DecidableEq

structure NetworkDef where
  driver : String
deriving DecidableEq

structure JobCompose where
  version : String
  volumes : List (String × VolumeDef) := []
  networks : List (String × NetworkDef) := []
  services : List (String × Service) := []
deriving DecidableEq

/-- Go `path.Join` restricted to the shapes used here (both components
non-empty, no internal cleanup needed). -/
def goPathJoin (a b : String) : String := a ++ "/" ++ b

/-- One iteration of the data-container loop of `InitFromJob`
(src/dcompose/dcompose.go lines 140-164): the service literal, then the
conditional `Volumes` assignment. -/
def dataContainerService (invID : String) (dc : DataContainerDecl) : Service :=
  let svc : Service :=
    { image := dc.name ++ ":" ++ dc.tag,
      containerName := dc.namePfx ++ "-" ++ invID,
      entryPoint := "/bin/true",
      loggingDriver := some "none",
      labels := [(model.DockerLabelKey, toString DataContainer)] }
  if dc.hostPath != "" || dc.containerPath != "" then
    { svc with
        volumes := [dc.hostPath ++ ":" ++ dc.containerPath ++ ":" ++
          (if dc.readOnly then "ro" else "rw")] }
  else svc

/-- One iteration of the input loop of `InitFromJob`
(src/dcompose/dcompose.go lines 166-185). -/
def inputService (porklockImageName vaultURL vaultToken invID : String)
    (inp : InputDecl) : Service :=
  { capAdd := ["IPC_LOCK"],
    image := porklockImageName,
    command := inp.arguments,
    environment :=
      [("VAULT_ADDR", vaultURL), ("VAULT_TOKEN", vaultToken), ("JOB_UUID", invID)],
    loggingDriver := some "none",
    workingDir := WORKDIR,
    volumes := [invID ++ ":" ++ WORKDIR ++ ":rw"],
    labels := [(model.DockerLabelKey, toString InputContainer)] }

/-- The `upload_outputs` service of `InitFromJob`
(src/dcompose/dcompose.go lines 192-214). -/
def uploadOutputsService (porklockImageName vaultURL vaultToken : String)
    (job : Job) : Service :=
  { capAdd := ["IPC_LOCK"],
    image := porklockImageName,
    command := job.finalOutputArguments,
    environment :=
      [("VAULT_ADDR", vaultURL), ("VAULT_TOKEN", vaultToken),
       ("JOB_UUID", job.invocationID)],
    workingDir := WORKDIR,
    volumes := [job.invocationID ++ ":" ++ WORKDIR ++ ":" ++ "rw"],
    networks := [job.invocationID],
    labels :=
      [(model.DockerLabelKey, job.invocationID),
       (TypeLabel, toString OutputContainer)],
    loggingDriver := some "none" }

/-- The `VolumesFrom` resolution loop of `ConvertStep`
(src/dcompose/dcompose.go lines 270-279): scan all services, remembering
the key of the last one whose container name matches (`foundService` stays
`""` when none matches). -/
def findVolumesFromKey (services : List (String × Service)) (containerName : String) : String :=
  services.foldl (fun acc p => if p.2.containerName == containerName then p.1 else acc) ""

/-- The environment mutation shared by both step-execution paths:
`step.Environment["IPLANT_USER"] = user` and
`step.Environment["IPLANT_EXECUTION_ID"] = invID`
(src/dcompose/dcompose.go lines 232-233, and identically
src/run.go lines 536-537 before `dckr.RunStep`). -/
def injectIdentifiers (env : List (String × String)) (user invID : String) :
    List (String × String) :=
  mapSet (mapSet env "IPLANT_USER" user) "IPLANT_EXECUTION_ID" invID

/-- The service built by `ConvertStep` (src/dcompose/dcompose.go lines
218-293) for step `index`: the service literal (lines 235-248), the four
conditional field assignments (lines 253-267), the `VolumesFrom`
resolution (lines 270-279), the working-directory volume (line 282) and
the device mappings (lines 284-292). In Go the service literal is inserted
into the map before the `VolumesFrom` scan, so the scan ranges over the
existing services plus the one being built. -/
def convertStepService (services : List (String × Service)) (step : Step) (index : Nat)
    (user invID : String) : Service :=
  let c := step.component.container
  let imageName :=
    if c.image.tag != "" then c.image.name ++ ":" ++ c.image.tag else c.image.name
  let svcKey := "step_" ++ toString index
  let base : Service :=
    { image := imageName,
      command := step.arguments,
      workingDir := c.workingDirectory,
      labels := [(model.DockerLabelKey, toString StepContainer)],
      containerName := c.name,
      environment := injectIdentifiers step.environment user invID,
      volumesFrom := [],
      volumes := [],
      devices := [] }
  let base := if c.entryPoint != "" then { base with entryPoint := c.entryPoint } else base
  let base := if c.memoryLimit > 0 then { base with memLimit := toString c.memoryLimit } else base
  let base := if c.cpuShares > 0 then { base with cpuShares := toString c.cpuShares } else base
  let base := if c.networkMode != "" then { base with networkMode := c.networkMode } else base
  let scanServices := services ++ [(svcKey, base)]
  let vfs := c.volumesFrom.map
    (fun vf => findVolumesFromKey scanServices (vf.namePfx ++ "-" ++ invID))
  let vols := [invID ++ ":" ++ c.workingDirectory ++ ":rw"]
  let devs := c.devices.map
    (fun d => d.hostPath ++ ":" ++ d.containerPath ++ ":" ++ d.cgroupPermissions)
  { base with
      volumesFrom := base.volumesFrom ++ vfs,
      volumes := base.volumes ++ vols,
      devices := base.devices ++ devs }

/-- Embedding of `ConvertStep` as a whole: the services map after the call,
with the step's service recorded under the key `step_<index>`. -/
def convertStep (services : List (String × Service)) (step : Step) (index : Nat)
    (user invID : String) : List (String × Service) :=
  services ++ [("step_" ++ toString index, convertStepService services step index user invID)]

/-- The step loop of `InitFromJob` (src/dcompose/dcompose.go lines 187-190). -/
def addSteps (services : List (String × Service)) (steps : List Step)
    (user invID : String) : List (String × Service) :=
  steps.enum.foldl (fun acc p => convertStep acc p.2 p.1 user invID) services

/-- Embedding of `InitFromJob` (src/dcompose/dcompose.go lines 118-215) on
a compose document freshly produced by `New()` (version "2", empty maps);
map insertions are recorded in program order. -/
def initFromJob (job : Job) (cfg : RunnerConfig) (workingdir : String) : JobCompose :=
  let volpath := goPathJoin workingdir VOLUMEDIR
  let porklockImageName := cfg.porklockImage ++ ":" ++ cfg.porklockTag
  let dataServices := job.dataContainers.enum.map
    (fun p => ("data_" ++ toString p.1, dataContainerService job.invocationID p.2))
  let inputServices := job.inputs.enum.map
    (fun p => ("input_" ++ toString p.1,
      inputService porklockImageName cfg.vaultURL cfg.vaultToken job.invocationID p.2))
  let withSteps :=
    addSteps (dataServices ++ inputServices) job.steps job.submitter job.invocationID
  let services := withSteps ++
    [("upload_outputs",
      uploadOutputsService porklockImageName cfg.vaultURL cfg.vaultToken job)]
  { version := "2",
    networks := [(job.invocationID, { driver := "bridge" })],
    volumes :=
      [(job.invocationID,
        { driver := "local",
          options := [("type", "none"), ("device", volpath), ("o", "bind")] })],
    services := services }

/-- Look up a service of the generated compose document by its service key. -/
def serviceLookup (jc : JobCompose) (key : String) : Option Service :=
  (jc.services.find? (fun p => p.1 == key)).map (fun p => p.2)

/-- The value a generated service carries under a given label key. -/
def serviceLabelValue (jc : JobCompose) (key labelKey : String) : Option String :=
  match serviceLookup jc key with
  | some svc => mapGet svc.labels labelKey
  | none => none

end dcompose

namespace dockerops

/-! ### The vendored `dockerops` package
(`src/vendor/github.com/cyverse-de/dockerops/containers.go`)

The const block at lines 41-56 has the same shape as the one in
`dcompose`: `TypeLabel` is the ConstSpec at index 0, so the iota-assigned
constants are 1, 2, 3, 4. The container-creation functions all build label
maps of the form `{model.DockerLabelKey: invID, TypeLabel: itoa(type)}`
(lines 507-509 step, 674-676 input, 771-773 output, 831-833 data). -/

def TypeLabel : String := "org.iplantc.containertype"

def InputContainer : Nat := 1

def DataContainer : Nat := 2

def StepContainer : Nat := 3

def OutputContainer : Nat := 4

def stepContainerLabels (invID : String) : List (String × String) :=
  [(model.DockerLabelKey, invID), (TypeLabel, toString StepContainer)]

def inputContainerLabels (invID : String) : List (String × String) :=
  [(model.DockerLabelKey, invID), (TypeLabel, toString InputContainer)]

def outputContainerLabels (invID : String) : List (String × String) :=
  [(model.DockerLabelKey, invID), (TypeLabel, toString OutputContainer)]

def dataContainerLabels (invID : String) : List (String × String) :=
  [(model.DockerLabelKey, invID), (TypeLabel, toString DataContainer)]

end dockerops

/-! ### Terminal-status computation of `Run` (`src/run.go` lines 344-426)

`runner.status` starts at `Success`. The pull command failure sets
`StatusDockerPullFailed` (lines 374-378); then `createDataContainers`
(returning `StatusDockerCreateFailed` on failure, lines 146-174),
`downloadInputs` (`StatusInputFailed`, lines 176-220) and `runAllSteps`
(`StatusStepFailed`, lines 237-302) are each attempted only while the
status is still `Success` and overwrite it with their result (lines
388-408). `uploadOutputs` (returning `StatusOutputFailed` on failure,
lines 304-333) is always attempted, and its result overwrites the status
exactly when it is not `Success` (lines 411-418). Each phase's outcome is
a boolean: whether the underlying compose invocation succeeded. -/

def createDataContainersStatus (ok : Bool) : StatusCode :=
  if ok then .success else .dockerCreateFailed

def downloadInputsStatus (ok : Bool) : StatusCode :=
  if ok then .success else .inputFailed

def runAllStepsStatus (ok : Bool) : StatusCode :=
  if ok then .success else .stepFailed

def uploadOutputsStatus (ok : Bool) : StatusCode :=
  if ok then .success else .outputFailed

/-- The value of `runner.status` after the step phase, before the output
upload (src/run.go lines 374-408). -/
def preUploadStatus (pullOk createOk downloadOk stepsOk : Bool) : StatusCode :=
  let st0 := if pullOk then StatusCode.success else StatusCode.dockerPullFailed
  let st1 := if st0 = StatusCode.success then createDataContainersStatus createOk else st0
  let st2 := if st1 = StatusCode.success then downloadInputsStatus downloadOk else st1
  if st2 = StatusCode.success then runAllStepsStatus stepsOk else st2

/-- The terminal status sent on the exit channel by `Run`
(src/run.go lines 411-425): `outputStatus` overwrites `runner.status`
exactly when `outputStatus != Success`. -/
def runFinalStatus (pullOk createOk downloadOk stepsOk uploadOk : Bool) : StatusCode :=
  let st := preUploadStatus pullOk createOk downloadOk stepsOk
  let outputStatus := uploadOutputsStatus uploadOk
  if outputStatus ≠ StatusCode.success then outputStatus else st

/-! ### Input-staging capture files (`src/run.go` lines 176-220)

For input `index`, `downloadInputs` opens the stderr capture file at
`path.Join(r.logsDir, fmt.Sprintf("logs-stderr-input-%d", index))`
(line 191) and the stdout capture file at
`path.Join(r.logsDir, fmt.Sprintf("logs-stderr-input-%d", index))`
(line 197 — the same format string). -/

def downloadInputsStderrPath (logsDir : String) (index : Nat) : String :=
  dcompose.goPathJoin logsDir ("logs-stderr-input-" ++ toString index)

def downloadInputsStdoutPath (logsDir : String) (index : Nat) : String :=
  dcompose.goPathJoin logsDir ("logs-stderr-input-" ++ toString index)

/-! ### Registry parsing and docker login (`src/run.go` lines 94-138, 335-341)

`parseRepo` calls `strings.Split(imagename, "/")` and returns `parts[0]`
when the name contains a `"/"`, and `""` otherwise. `strings.Split` with a
single-character separator is modelled on the character list of the
string. -/

def splitOnChar (sep : Char) : List Char → List (List Char)
  | [] => [[]]
  | c :: rest =>
    match splitOnChar sep rest with
    | [] => [[]]
    | h :: t => if c = sep then [] :: h :: t else (c :: h) :: t

def parseRepo (imagename : String) : String :=
  if imagename.data.contains '/' then
    String.mk ((splitOnChar '/' imagename.data).headD [])
  else ""

/-- The argument vector handed to the docker binary by `DockerLogin` for an
authenticated image (src/run.go lines 111-119): the last argument is
`parseRepo(img.Name)`. -/
def dockerLoginArgs (username password imageName : String) : List String :=
  ["login", "--username", username, "--password", password, parseRepo imageName]

theorem splitOnChar_ne_nil (sep : Char) (l : List Char) : splitOnChar sep l ≠ [] := by
  induction l with
  | nil => simp [splitOnChar]
  | cons c rest ih =>
    simp only [splitOnChar]
    cases h : splitOnChar sep rest with
    | nil => simp
    | cons hd tl => by_cases hc : c = sep <;> simp [hc]

theorem splitOnChar_headD (sep : Char) (l : List Char) :
    (splitOnChar sep l).headD [] = l.takeWhile (fun c => !(c == sep)) := by
  induction l with
  | nil => simp [splitOnChar]
  | cons c rest ih =>
    simp only [splitOnChar]
    cases h : splitOnChar sep rest with
    | nil => exact absurd h (splitOnChar_ne_nil sep rest)
    | cons hd tl =>
      rw [h] at ih
      by_cases hc : c = sep
      · subst hc
        simp [List.takeWhile_cons]
      · simp only [List.headD_cons] at ih
        simp [hc, List.takeWhile_cons, ih]

/-! ### Concrete job used to exhibit the compose-label divergence

A job with one data container, one input and one step; its generated
compose document is computed with `initFromJob`. -/

def jobC1 : Job :=
  { invocationID := "inv-1",
    submitter := "alice",
    dataContainers := [{ name := "dcimg", tag := "latest", namePfx := "dc0" }],
    inputs := [{ irodsPath := "/in/a", arguments := ["get", "/in/a"] }],
    steps :=
      [{ component := { container := { image := { name := "tool", tag := "1.0" }, name := "sc1" } },
         arguments := ["run"] }],
    finalOutputArguments := ["put"] }

def cfgC1 : RunnerConfig :=
  { porklockImage := "porklock", porklockTag := "latest",
    vaultURL := "http://vault", vaultToken := "tok" }

def composeC1 : dcompose.JobCompose := dcompose.initFromJob jobC1 cfgC1 "/workdir"

/-! ## The claims -/

/-- C1: the compose services generated by `InitFromJob`/`ConvertStep` for
data containers, inputs and steps carry the platform-identity key with the
container-type NUMBER as its value ("2", "1", "3" respectively) and carry
no type label at all — they do not carry the InvocationID under any label.
Only the `upload_outputs` service carries both the platform-identity label
with the InvocationID and the type label. This contradicts the claim (and
the Reaper's label-based discovery in exit.go, and the direct-engine label
maps in dockerops, which set both labels on every container). -/
theorem compose_label_divergence :
    dcompose.serviceLabelValue composeC1 "data_0" model.DockerLabelKey = some "2" ∧
    dcompose.serviceLabelValue composeC1 "data_0" dcompose.TypeLabel = none ∧
    dcompose.serviceLabelValue composeC1 "input_0" model.DockerLabelKey = some "1" ∧
    dcompose.serviceLabelValue composeC1 "input_0" dcompose.TypeLabel = none ∧
    dcompose.serviceLabelValue composeC1 "step_0" model.DockerLabelKey = some "3" ∧
    dcompose.serviceLabelValue composeC1 "step_0" dcompose.TypeLabel = none ∧
    dcompose.serviceLabelValue composeC1 "upload_outputs" model.DockerLabelKey = some "inv-1" ∧
    dcompose.serviceLabelValue composeC1 "upload_outputs" dcompose.TypeLabel = some "4" ∧
    (some "2" : Option String) ≠ some "inv-1" ∧
    (some "1" : Option String) ≠ some "inv-1" ∧
    (some "3" : Option String) ≠ some "inv-1" := by
  decide

/-- C2 counterexample: the deadline-kill ticker delivers `StatusTimeLimit`
on the exit channel, yet on a `TimeLimit` exit `Exit` takes the default
branch and never attempts `RemoveDataContainerImages`, contradicting the
claim that the image-removal branch is taken for TimeLimit. -/
theorem exit_timeLimit_no_image_removal :
    tickerDeadlineExitStatus = StatusCode.timeLimit ∧
    CleanupAction.removeDataContainerImages ∉
      exitCleanupActions "invocation" StatusCode.timeLimit := by
  decide

/-- C2 (amended): `Exit` force-removes the declared data-container images
if and only if the terminal status code is `Killed`; every other code,
including the `TimeLimit` delivered by the deadline-kill ticker, takes the
default branch with no image removal. -/
theorem exit_removes_images_iff_killed :
    (∀ (invID : String) (code : StatusCode),
      CleanupAction.removeDataContainerImages ∈ exitCleanupActions invID code ↔
        code = StatusCode.killed) ∧
    tickerDeadlineExitStatus = StatusCode.timeLimit := by
  refine ⟨?_, rfl⟩
  intro invID code
  cases code <;> simp [exitCleanupActions]

/-- C3 counterexample: with only the step phase failing and the output
upload failing, `Run` exits with `OutputFailed` instead of the earlier
failure code `StepFailed`, contradicting the claim that an earlier failure
code is final regardless of the upload outcome. -/
theorem run_upload_overwrites_earlier_failure :
    preUploadStatus true true true false = StatusCode.stepFailed ∧
    runFinalStatus true true true false false = StatusCode.outputFailed ∧
    StatusCode.outputFailed ≠ StatusCode.stepFailed := by
  decide

/-- C3 (amended): the upload status supersedes `Success` — when the upload
succeeds, the status standing after the earlier phases (the first failure
code, or `Success`) is final; but when the upload fails, the final status
is `OutputFailed` even if an earlier phase had recorded a different
failure code. The earlier-phase status is the first failure in phase
order. -/
theorem run_final_status_behaviour :
    ∀ p c d s : Bool,
      runFinalStatus p c d s true = preUploadStatus p c d s ∧
      runFinalStatus p c d s false = StatusCode.outputFailed ∧
      preUploadStatus false c d s = StatusCode.dockerPullFailed ∧
      preUploadStatus true false d s = StatusCode.dockerCreateFailed ∧
      preUploadStatus true true false s = StatusCode.inputFailed ∧
      preUploadStatus true true true false = StatusCode.stepFailed ∧
      preUploadStatus true true true true = StatusCode.success := by
  decide

/-- C4 counterexample: the iota-based const block places `TypeLabel` at
ConstSpec index 0, so the container-type constants are not 0, 1, 2, 3. -/
theorem type_constants_not_zero_based :
    ¬ (dcompose.InputContainer = 0 ∧ dcompose.DataContainer = 1 ∧
       dcompose.StepContainer = 2 ∧ dcompose.OutputContainer = 3) := by
  decide

/-- C4 (amended): the iota-based const blocks of both `dcompose` and the
vendored `dockerops` assign Input = 1, Data = 2, Step = 3, Output = 4, and
the values written under the container-type label key are the decimal
strings of these constants. -/
theorem type_constants_values :
    dcompose.InputContainer = 1 ∧ dcompose.DataContainer = 2 ∧
    dcompose.StepContainer = 3 ∧ dcompose.OutputContainer = 4 ∧
    dockerops.InputContainer = 1 ∧ dockerops.DataContainer = 2 ∧
    dockerops.StepContainer = 3 ∧ dockerops.OutputContainer = 4 ∧
    mapGet (dockerops.stepContainerLabels "inv") dockerops.TypeLabel = some "3" ∧
    mapGet (dockerops.inputContainerLabels "inv") dockerops.TypeLabel = some "1" ∧
    mapGet (dockerops.dataContainerLabels "inv") dockerops.TypeLabel = some "2" ∧
    mapGet (dockerops.outputContainerLabels "inv") dockerops.TypeLabel = some "4" := by
  decide

/-- C5 counterexample: calling `ApplyDelta` on a tracker whose timer is no
longer active returns the error, but the recorded `EndDate` IS mutated
(from 100 to 110 here), contradicting the claim that the state is left
unchanged on the error path. -/
theorem applyDelta_inactive_mutates :
    (TimeTracker.ApplyDelta
        { endDate := 100, timerActive := false, timerFireTime := 0 } 50 10).err =
      some "Timer was not active" ∧
    (TimeTracker.ApplyDelta
        { endDate := 100, timerActive := false, timerFireTime := 0 } 50 10).tracker.endDate =
      110 ∧
    (110 : Int) ≠ 100 := by
  decide

/-- C5 (amended): `ApplyDelta` on an inactive timer returns the
"Timer was not active" error, but `EndDate` is nonetheless updated to
currentEnd + Δ (the mutation happens before the activity check); only the
error return distinguishes the inactive case. -/
theorem applyDelta_inactive_error_and_update :
    ∀ (t : TimeTracker) (now delta : Int),
      t.timerActive = false →
      (t.ApplyDelta now delta).err = some "Timer was not active" ∧
      (t.ApplyDelta now delta).tracker.endDate = t.endDate + delta := by
  intro t now delta h
  simp [TimeTracker.ApplyDelta, h]

/-- Witness for the amended C5 theorem at a concrete inactive tracker. -/
theorem applyDelta_inactive_error_and_update_witness :
    (TimeTracker.ApplyDelta
        { endDate := 7, timerActive := false, timerFireTime := 0 } 3 5).err =
      some "Timer was not active" ∧
    (TimeTracker.ApplyDelta
        { endDate := 7, timerActive := false, timerFireTime := 0 } 3 5).tracker.endDate =
      (7 : Int) + 5 :=
  applyDelta_inactive_error_and_update
    { endDate := 7, timerActive := false, timerFireTime := 0 } 3 5 rfl

/-- C6: `ApplyDelta` on an active timer records the new end date
currentEnd + Δ (110 here) but reschedules the kill timer with the duration
`t.EndDate.Sub(time.Now())` computed from the OLD end date, so the kill
still fires at the old end date (100), not at currentEnd + Δ — the code
contradicts its own comment ("the difference between the new end date and
now") and the claim. -/
theorem applyDelta_reschedules_to_old_end :
    (TimeTracker.ApplyDelta
        { endDate := 100, timerActive := true, timerFireTime := 100 } 50 10).err = none ∧
    (TimeTracker.ApplyDelta
        { endDate := 100, timerActive := true, timerFireTime := 100 } 50 10).tracker.endDate =
      110 ∧
    (TimeTracker.ApplyDelta
        { endDate := 100, timerActive := true, timerFireTime := 100 } 50 10).tracker.timerFireTime =
      100 ∧
    (100 : Int) ≠ 110 := by
  decide

/-- C7 counterexample: a step whose duration is exactly 60 seconds
(= 2·minBuffer) is NOT below the strict `<` threshold, so the computed
buffer is the 30-second minimum, not zero, and `getTicker` schedules a
warning for a TimeLimit of exactly 60 seconds. -/
theorem warning_buffer_at_sixty_seconds :
    determineCancellationWarningBuffer (60 * nsPerSecond) = minCancellationBuffer ∧
    minCancellationBuffer ≠ 0 ∧
    getTickerSchedulesWarning 60 = some true := by
  decide

/-- C7 (amended): the buffer is zero (and no warning is scheduled) exactly
when D is STRICTLY below 2·minBuffer = 60 seconds; for D ≥ 60 seconds the
buffer equals clamp(0.2·D, 30 s, 5 min) — in particular at exactly 60
seconds the buffer is 30 seconds and a warning is scheduled. -/
theorem warning_buffer_behaviour :
    ∀ D : Int,
      (D < cancellationBufferThreshold → determineCancellationWarningBuffer D = 0) ∧
      (cancellationBufferThreshold ≤ D →
        determineCancellationWarningBuffer D =
          clampDuration (D * 2 / 10) minCancellationBuffer maxCancellationBuffer) := by
  intro D
  constructor
  · intro h
    simp [determineCancellationWarningBuffer, h]
  · intro h
    have h2 : ¬ D < cancellationBufferThreshold := not_lt.mpr h
    simp [determineCancellationWarningBuffer, clampDuration, h2]

/-- Witness for the amended C7 theorem on both sides of the threshold. -/
theorem warning_buffer_behaviour_witness :
    determineCancellationWarningBuffer (45 * nsPerSecond) = 0 ∧
    determineCancellationWarningBuffer (300 * nsPerSecond) =
      clampDuration (300 * nsPerSecond * 2 / 10) minCancellationBuffer
        maxCancellationBuffer :=
  ⟨(warning_buffer_behaviour (45 * nsPerSecond)).1 (by decide),
   (warning_buffer_behaviour (300 * nsPerSecond)).2 (by decide)⟩

/-- C8: in both step-execution paths the step's environment at container
creation contains IPLANT_USER = submitter and IPLANT_EXECUTION_ID =
InvocationID: the service `ConvertStep` generates carries exactly the
augmented environment, and the augmentation (shared verbatim with the
direct-engine `runAllSteps` path) maps the two keys to the two
identifiers. -/
theorem step_environment_has_identifiers :
    ∀ (services : List (String × dcompose.Service)) (step : Step) (index : Nat)
      (user invID : String) (env : List (String × String)),
      (dcompose.convertStepService services step index user invID).environment =
        dcompose.injectIdentifiers step.environment user invID ∧
      mapGet (dcompose.injectIdentifiers env user invID) "IPLANT_USER" = some user ∧
      mapGet (dcompose.injectIdentifiers env user invID) "IPLANT_EXECUTION_ID" =
        some invID := by
  intro services step index user invID env
  refine ⟨?_, ?_, ?_⟩
  · by_cases h1 : step.component.container.entryPoint != ""
      <;> by_cases h2 : step.component.container.memoryLimit > 0
      <;> by_cases h3 : step.component.container.cpuShares > 0
      <;> by_cases h4 : step.component.container.networkMode != ""
      <;> simp [dcompose.convertStepService, h1, h2, h3, h4]
  · rw [dcompose.injectIdentifiers,
      mapGet_mapSet_ne _ _ _ _ (by decide),
      mapGet_mapSet_self]
  · rw [dcompose.injectIdentifiers, mapGet_mapSet_self]

/-- C9: for every input index, the stdout capture file and the stderr
capture file of the compose-based input staging are opened at the
identical `logs-stderr-input-<i>` path, and no `logs-stdout-input-<i>`
path is ever opened. -/
theorem download_capture_paths :
    ∀ (logsDir : String) (index : Nat),
      downloadInputsStdoutPath logsDir index = downloadInputsStderrPath logsDir index ∧
      downloadInputsStdoutPath logsDir index ≠
        dcompose.goPathJoin logsDir ("logs-stdout-input-" ++ toString index) := by
  intro logsDir index
  refine ⟨rfl, ?_⟩
  intro h
  have h2 := congrArg String.data h
  simp only [downloadInputsStdoutPath, dcompose.goPathJoin, String.data_append] at h2
  have h3 := List.append_cancel_left h2
  have h4 := List.append_cancel_right h3
  exact absurd h4 (by decide)

/-- C10: `parseRepo` returns the prefix of the image name before its first
slash when the name contains one, and the empty string otherwise; hence
`DockerLogin` passes an empty registry argument for any authenticated
image whose name has no slash. -/
theorem parseRepo_behaviour :
    ∀ (name username password : String),
      (name.data.contains '/' = true →
        parseRepo name = String.mk (name.data.takeWhile (fun c => !(c == '/')))) ∧
      (name.data.contains '/' = false → parseRepo name = "") ∧
      (name.data.contains '/' = false →
        (dockerLoginArgs username password name).getLast? = some "") := by
  intro name username password
  refine ⟨?_, ?_, ?_⟩
  · intro h
    rw [parseRepo, if_pos h, splitOnChar_headD]
  · intro h
    have h2 : ¬ ('/' ∈ name.data) := by simpa using h
    simp [parseRepo, h2]
  · intro h
    have h2 : ¬ ('/' ∈ name.data) := by simpa using h
    have hp : parseRepo name = "" := by simp [parseRepo, h2]
    simp [dockerLoginArgs, hp]

/-- Witness for the C10 theorem at a slash-bearing and a slash-free image
name. -/
theorem parseRepo_behaviour_witness :
    parseRepo "discoenv/porklock" =
      String.mk ("discoenv/porklock".data.takeWhile (fun c => !(c == '/'))) ∧
    parseRepo "ubuntu" = "" ∧
    (dockerLoginArgs "user" "pass" "ubuntu").getLast? = some "" :=
  ⟨(parseRepo_behaviour "discoenv/porklock" "user" "pass").1 (by decide),
   (parseRepo_behaviour "ubuntu" "user" "pass").2.1 (by decide),
   (parseRepo_behaviour "ubuntu" "user" "pass").2.2 (by decide)⟩

end RoadRunner
